import Mathlib

/-!
Verification of the content-recommendation module of ka-lite
(`kalite/topic_tools/content_recommendation.py`).

The module is embedded shallowly:

* the topic tree (topic -> subtopic -> exercise, with the two optional nested
  exercise levels that the ancestry builder inspects) is a concrete datatype;
* the Django query sets over `ExerciseLog`, `VideoLog`, `ContentLog` and
  `FacilityUser` are lists of records in a `LogDB` value, with the `order_by`
  clauses modelled as stable insertion sorts (SQL places a NULL timestamp
  below every real one, so timestamps are `Option Nat` with `none` minimal);
* the external caches (`get_exercise_cache`, `get_content_cache`) and the flat
  node list consumed by `get_topic_tree_lookup_table` are parameters;
* Python dictionaries are association lists whose lookup takes the most
  recent binding (`alookup`), matching assignment overwrite;
* a Python function that can raise (KeyError / TypeError) is embedded with an
  `Option` result, `none` standing for an uncaught exception;
* `str.split(' ')` is `pySplit ' '`, which reproduces the exact CPython
  semantics including empty fields, and the `while` loop of
  `get_subsequent_neighbors` is given explicit fuel (the loop walks a finite
  chain of subtopics, so `fuelOf` is always enough in practice).
-/

/-- Characterwise splitter giving CPython `str.split(sep)` semantics for a
one-character separator: empty fields are kept, and splitting the empty
string yields one empty field. -/
def splitChars (sep : Char) : List Char → List (List Char)
  | [] => [[]]
  | c :: rest =>
    let r := splitChars sep rest
    if c = sep then [] :: r
    else
      match r with
      | [] => [[c]]
      | h :: t => (c :: h) :: t

/-- Embedding of Python `s.split(sep)` for a one-character separator. -/
def pySplit (sep : Char) (s : String) : List String :=
  (splitChars sep s.data).map String.mk

/-- Embedding of `s.split(' ')[0]`; a split result is never empty, so the
default is unreachable. -/
def tok0 (s : String) : String :=
  (pySplit ' ' s).headD ""

/-- Embedding of `s.split(' ')[1]`.  For the strings the module builds the
index is always present; the default covers inputs where Python would raise
an IndexError. -/
def tok1 (s : String) : String :=
  ((pySplit ' ' s)[1]?).getD ""

/-- Lookup in an association list with the semantics of a Python dict that
was filled by successive assignments: the most recent binding wins. -/
def alookup {α : Type} : List (String × α) → String → Option α
  | [], _ => none
  | p :: rest, k =>
    match alookup rest k with
    | some v => some v
    | none => if p.1 == k then some p.2 else none

/-- Strict comparison of nullable timestamps; `none` (SQL NULL, and the
`datetime.datetime.min` default) is below every concrete timestamp. -/
def optLt : Option Nat → Option Nat → Bool
  | none, some _ => true
  | none, none => false
  | some _, none => false
  | some a, some b => Nat.blt a b

/-- Stable insertion used by `sortIns`: `x` is placed before the first
element it must strictly precede, hence after every earlier equal element. -/
def insertSorted {α : Type} (lt : α → α → Bool) (x : α) : List α → List α
  | [] => [x]
  | y :: ys => if lt x y then x :: y :: ys else y :: insertSorted lt x ys

/-- Stable sort (insertion sort) with a strict `must come before` relation.
Used to model Django `order_by` and Python `sorted`. -/
def sortIns {α : Type} (lt : α → α → Bool) (l : List α) : List α :=
  l.foldl (fun acc x => insertSorted lt x acc) []

/-! ### Data model: the nested topic tree -/

/-- Third nested exercise level (`ex3` in the ancestry builder). -/
structure ExNode3 where
  id : String
  kind : String
deriving DecidableEq

/-- Second nested exercise level (`ex2` in the ancestry builder). -/
structure ExNode2 where
  id : String
  kind : String
  children : List ExNode3
deriving DecidableEq

/-- Leaf exercise node of the topic tree; `children` is empty when the
Python node has no `children` key. -/
structure Exercise where
  id : String
  title : String
  kind : String
  description : String
  children : List ExNode2
deriving DecidableEq

/-- Subtopic node of the topic tree. -/
structure Subtopic where
  id : String
  title : String
  path : String
  description : String
  children : List Exercise
deriving DecidableEq

/-- Topic node of the topic tree. -/
structure Topic where
  id : String
  title : String
  children : List Subtopic
deriving DecidableEq

/-- Root of the nested topic tree returned by `generate_topic_tree`. -/
structure TopicTree where
  children : List Topic
deriving DecidableEq

/-- Row of the exercise ancestry table built by
`get_exercise_parents_lookup_table`. -/
structure ParentEntry where
  subtopic_id : String
  topic_id : String
  subtopic_title : String
  topic_title : String
  kind : String
  title : String
  description : String
deriving DecidableEq

/-- Embedding of `get_exercise_parents_lookup_table` (lines 309-348): three
nested loops over topic, subtopic and exercise, plus the two optional nested
exercise levels.  Note that the nested rows take `title` and `description`
from the enclosing first-level exercise while `kind` comes from the nested
node, exactly as in the source. -/
def get_exercise_parents_lookup_table (tree : TopicTree) : List (String × ParentEntry) :=
  tree.children.flatMap (fun topicN =>
    topicN.children.flatMap (fun st =>
      st.children.flatMap (fun ex =>
        (ex.id,
          { subtopic_id := st.id, topic_id := topicN.id,
            subtopic_title := st.title, topic_title := topicN.title,
            kind := ex.kind, title := ex.title, description := ex.description }) ::
        ex.children.flatMap (fun ex2 =>
          (ex2.id,
            { subtopic_id := st.id, topic_id := topicN.id,
              subtopic_title := st.title, topic_title := topicN.title,
              kind := ex2.kind, title := ex.title, description := ex.description }) ::
          ex2.children.map (fun ex3 =>
            (ex3.id,
              { subtopic_id := st.id, topic_id := topicN.id,
                subtopic_title := st.title, topic_title := topicN.title,
                kind := ex3.kind, title := ex.title, description := ex.description }))))))

/-- Flat node of the iterable consumed by `get_topic_tree_lookup_table`
(an external collaborator supplies it). -/
structure FlatNode where
  id : String
  title : String
  kind : String
  path : String
  description : String
  parent : String
  children : List String
deriving DecidableEq

/-- Value stored by `get_topic_tree_lookup_table`; `children` is present
only for container kinds. -/
structure NodeMeta where
  id : String
  title : String
  kind : String
  path : String
  description : String
  parent : String
  children : Option (List String)
deriving DecidableEq

/-- Embedding of `get_topic_tree_lookup_table` (lines 437-455). -/
def get_topic_tree_lookup_table (flat : List FlatNode) : List (String × NodeMeta) :=
  flat.map (fun item =>
    (item.id,
      { id := item.id, title := item.title, kind := item.kind, path := item.path,
        description := item.description, parent := item.parent,
        children :=
          if item.kind == "Video" || item.kind == "Exercise" then none
          else some item.children }))

/-! ### NEAREST NEIGHBORS algorithm -/

/-- Embedding of `get_neighbors_at_dist_1` (lines 653-690).  The index
accesses are all in range when the function is called by
`generate_recommendation_data` on a tree whose topics have subtopics; the
`none` fallbacks cover the inputs where Python would raise an IndexError. -/
def get_neighbors_at_dist_1 (topic subtopic : Nat) (tree : TopicTree) : List String :=
  match tree.children[topic]? with
  | none => [" ", " "]
  | some topicNode =>
    let leftEntry : String :=
      if 1 ≤ subtopic then
        match topicNode.children[subtopic - 1]? with
        | some st => st.id ++ " 1"
        | none => " "
      else if 1 ≤ topic then
        match tree.children[topic - 1]? with
        | some prevTopic =>
          match prevTopic.children.getLast? with
          | some lastSt => lastSt.id ++ " 4"
          | none => " "
        | none => " "
      else " "
    let rightEntry : String :=
      if subtopic + 1 < topicNode.children.length then
        match topicNode.children[subtopic + 1]? with
        | some st => st.id ++ " 1"
        | none => " "
      else if topic + 1 < tree.children.length then
        match tree.children[topic + 1]? with
        | some nextTopic =>
          match nextTopic.children[0]? with
          | some firstSt => firstSt.id ++ " 4"
          | none => " "
        | none => " "
      else " "
    [leftEntry, rightEntry]

/-- ITERATION 1 of `generate_recommendation_data` (lines 538-555): for every
subtopic record itself at distance 0 followed by the two distance-1
neighbor entries. -/
def iter1 (tree : TopicTree) : List (String × List String) :=
  tree.children.enum.flatMap (fun ti =>
    ti.2.children.enum.map (fun si =>
      (si.2.id, (si.2.id ++ " 0") :: get_neighbors_at_dist_1 ti.1 si.1 tree)))

/-- Python `data[k]['related_subtopics'][1]`; a missing key or index, where
Python would raise, is modelled by the empty string. -/
def entry1 (data : List (String × List String)) (k : String) : String :=
  (((alookup data k).getD [])[1]?).getD ""

/-- Python `data[k]['related_subtopics'][2]`, with the same convention as
`entry1`. -/
def entry2 (data : List (String × List String)) (k : String) : String :=
  (((alookup data k).getD [])[2]?).getD ""

/-- Left half of the body of the `while` loop of `get_subsequent_neighbors`
(lines 735-757).  Returns the new accumulator, the new `at_four_left` flag
and the new `left` pointer. -/
def gsnLeft (data : List (String × List String)) (curr : String)
    (left : String) (at4l : Bool) (acc : List String) :
    List String × Bool × String :=
  if left == " " then (acc, at4l, left)
  else
    let e := entry1 data left
    if e != " " then
      let nd : String × Bool :=
        if at4l then ("4", true)
        else if tok1 (entry1 data curr) == "4" then ("4", true)
        else if tok1 e == "4" then ("4", true)
        else ("1", at4l)
      (acc ++ [tok0 e ++ " " ++ nd.1], nd.2, tok0 e)
    else (acc, at4l, tok0 e)

/-- Right half of the body of the `while` loop of `get_subsequent_neighbors`
(lines 759-785).  The flag update is written after the distance choice, as
in the source (`if new_dist == 4: at_four_right = True`). -/
def gsnRight (data : List (String × List String)) (curr : String)
    (right : String) (at4r : Bool) (acc : List String) :
    List String × Bool × String :=
  if right == " " then (acc, at4r, right)
  else
    let e := entry2 data right
    if e != " " then
      let nd : String :=
        if at4r then "4"
        else if tok1 (entry2 data curr) == "4" then "4"
        else if tok1 e == "4" then "4"
        else "1"
      let at4r2 := if nd == "4" then true else at4r
      (acc ++ [tok0 e ++ " " ++ nd], at4r2, tok0 e)
    else (acc, at4r, tok0 e)

/-- The `while left != ' ' or right != ' '` loop of
`get_subsequent_neighbors` (lines 730-785), with explicit fuel.  Each
iteration first normalises an empty pointer to `' '`, then performs the left
step, then normalises and performs the right step, exactly as in the
source. -/
def gsnLoop (data : List (String × List String)) (curr : String) :
    Nat → String → String → Bool → Bool → List String → List String
  | 0, _, _, _, _, acc => acc
  | Nat.succ fuel, left, right, at4l, at4r, acc =>
    if left == " " && right == " " then acc
    else
      let left1 := if left == "" then " " else left
      let sl := gsnLeft data curr left1 at4l acc
      let right1 := if right == "" then " " else right
      let sr := gsnRight data curr right1 at4r sl.1
      gsnLoop data curr fuel sl.2.2 sr.2.2 sl.2.1 sr.2.1 sr.1

/-- Fuel that certainly exceeds the length of any left or right pointer
chain in the tree. -/
def fuelOf (tree : TopicTree) : Nat :=
  tree.children.foldl (fun n t => n + t.children.length) 0 + 4

/-- Embedding of `get_subsequent_neighbors` (lines 703-787). -/
def get_subsequent_neighbors (fuel : Nat) (nearest : List String)
    (data : List (String × List String)) (curr : String) : List String :=
  let ln := pySplit ' ' ((nearest[1]?).getD "")
  let rn := pySplit ' ' ((nearest[2]?).getD "")
  let left := if 1 < ln.length then ln.headD "" else " "
  let right := if 1 < rn.length then rn.headD "" else " "
  gsnLoop data curr fuel left right false false []

/-- ITERATION 2 of `generate_recommendation_data` (lines 562-566).  The
Python loop mutates the dict while iterating, but `get_subsequent_neighbors`
only reads indices 1 and 2 of each entry, which the appends never change, so
mapping over the ITERATION 1 snapshot is equivalent. -/
def iter2_data (tree : TopicTree) : List (String × List String) :=
  let d0 := iter1 tree
  d0.map (fun p => (p.1, p.2 ++ get_subsequent_neighbors (fuelOf tree) p.2 d0 p.1))

/-- Accumulating loop of ITERATION 2.5 (lines 575-588): entries whose
distance token is `4` go to the second list, every other entry to the
first, in traversal order. -/
def splitGo : List String × List String → List String → List String × List String
  | acc, [] => acc
  | acc, recc :: rest =>
    splitGo
      (if tok1 recc == "4" then (acc.1, acc.2 ++ [tok0 recc])
       else (acc.1 ++ [tok0 recc], acc.2)) rest

/-- ITERATION 2.5 of `generate_recommendation_data` for one entry: the
near block (distance below 4) followed by the far block (distance 4), with
the distance tokens stripped. -/
def sortRelated (rel : List String) : List String :=
  (splitGo ([], []) rel).1 ++ (splitGo ([], []) rel).2

/-- Embedding of `generate_recommendation_data` (lines 468-592), composed of
the three iterations of the source.  The hardcoded fallback table of the
source is dead data and is omitted. -/
def generate_recommendation_data (tree : TopicTree) : List (String × List String) :=
  (iter2_data tree).map (fun p => (p.1, sortRelated p.2))

/-! ### Candidate exercises from subtopics -/

/-- Modelled from the spec: `get_topic_exercises` is imported from the
`kalite.topic_tools` package, whose source is not part of the files under
verification.  Following sections 4.3 and 6 of the spec it returns the
ordered exercise children of the subtopic with the given id, and no
exercises for an id that does not occur in the tree. -/
def get_topic_exercises (tree : TopicTree) (tid : String) : List Exercise :=
  match (tree.children.flatMap (fun t => t.children)).find? (fun st => st.id == tid) with
  | some st => st.children
  | none => []

/-- Embedding of `get_exercises_from_topics` (lines 352-360): for each id in
order, the ids of the first 5 exercises below it. -/
def get_exercises_from_topics (tree : TopicTree) (topicId_list : List String) : List String :=
  topicId_list.foldl
    (fun exs topic => exs ++ ((get_topic_exercises tree topic).take 5).map (fun e => e.id)) []

/-- Row computation of `get_recommendation_tree`: all exercises (no cap) of
every non-empty related id, in order. -/
def recRow (tree : TopicTree) (related : List String) : List String :=
  related.foldl
    (fun acc rel =>
      if 0 < rel.length then acc ++ (get_topic_exercises tree rel).map (fun e => e.id)
      else acc) []

/-- Embedding of `get_recommendation_tree` (lines 602-621). -/
def get_recommendation_tree (tree : TopicTree) (data : List (String × List String)) :
    List (String × List String) :=
  data.map (fun p => (p.1, recRow tree p.2))

/-- Embedding of `get_recommended_exercises` (lines 632-642).  The argument
is `Option String` so that the Python call with `None` is representable; a
falsy id (`None` or the empty string) returns the empty list, any other id
is looked up in the recommendation tree and a missing key is an uncaught
KeyError, modelled by `none`. -/
def get_recommended_exercises (tree : TopicTree) (subtopic_id : Option String) :
    Option (List String) :=
  match subtopic_id with
  | none => some []
  | some sid =>
    if sid == "" then some []
    else alookup (get_recommendation_tree tree (generate_recommendation_data tree)) sid

/-! ### Activity logs -/

/-- Row of the `ExerciseLog` table. -/
structure ExLogRec where
  user : String
  exercise_id : String
  complete : Bool
  struggling : Bool
  latest_activity_timestamp : Option Nat
  completion_timestamp : Option Nat
deriving DecidableEq

/-- Row of the `VideoLog` table. -/
structure VideoLogRec where
  user : String
  video_id : String
  complete : Bool
  latest_activity_timestamp : Option Nat
deriving DecidableEq

/-- Row of the `ContentLog` table. -/
structure ContentLogRec where
  user : String
  content_id : String
  complete : Bool
  latest_activity_timestamp : Option Nat
deriving DecidableEq

/-- Row of the `FacilityUser` table. -/
structure FacilityUser where
  id : String
  group : String
deriving DecidableEq

/-- Snapshot of the external log store at call time. -/
structure LogDB where
  exerciseLogs : List ExLogRec
  videoLogs : List VideoLogRec
  contentLogs : List ContentLogRec
  users : List FacilityUser
deriving DecidableEq

/-- Exercise cache entry (`get_exercise_cache`, an external collaborator). -/
structure CacheEx where
  id : String
  title : String
  kind : String
  description : String
  prerequisites : List String
deriving DecidableEq

/-- Content cache entry (`get_content_cache`, an external collaborator). -/
structure CacheContent where
  id : String
  title : String
  kind : String
deriving DecidableEq

/-- Embedding of `get_most_recent_exercises` (lines 404-409): all exercise
ids of the user, most recent activity first. -/
def get_most_recent_exercises (db : LogDB) (user : FacilityUser) : List String :=
  (sortIns (fun a b => optLt b.latest_activity_timestamp a.latest_activity_timestamp)
    (db.exerciseLogs.filter (fun l => l.user == user.id))).map (fun l => l.exercise_id)

/-- Embedding of `get_struggling_exercises` (lines 170-182): sort the user
logs by completion timestamp, most recent first, then keep the struggling
ids. -/
def get_struggling_exercises (db : LogDB) (user : FacilityUser) : List String :=
  ((sortIns (fun a b => optLt b.completion_timestamp a.completion_timestamp)
      (db.exerciseLogs.filter (fun l => l.user == user.id))).filter
    (fun l => l.struggling)).map (fun l => l.exercise_id)

/-- Embedding of `get_exercise_prereqs` (lines 188-194): concatenate the
prerequisite lists; an exercise id without a cache entry is an uncaught
KeyError, modelled by `none`. -/
def get_exercise_prereqs (exCache : String → Option CacheEx) :
    List String → Option (List String)
  | [] => some []
  | e :: es =>
    match exCache e with
    | none => none
    | some c =>
      match get_exercise_prereqs exCache es with
      | none => none
      | some rest => some (c.prerequisites ++ rest)

/-- Ordering of the group query (lines 133): `extra(order_by=["-null_complete",
"-completion_timestamp"])` places the rows with a NULL completion timestamp
first, then orders by completion timestamp descending. -/
def groupOrderLt (a b : ExLogRec) : Bool :=
  (a.completion_timestamp.isNone && !b.completion_timestamp.isNone) ||
  ((a.completion_timestamp.isNone == b.completion_timestamp.isNone) &&
    optLt b.completion_timestamp a.completion_timestamp)

/-- Python dict counter update: increment in place, or append a new key with
count 1. -/
def bump (l : List (String × Nat)) (k : String) : List (String × Nat) :=
  if l.any (fun p => p.1 == k) then
    l.map (fun p => if p.1 == k then (p.1, p.2 + 1) else p)
  else l ++ [(k, 1)]

/-- Pair loop of `get_group_recommendations` (lines 137-146): for every
adjacent pair of one member logs, when the later log is one of the recent
exercises of the user, count the exercise of the earlier log. -/
def countPairs (recent : List String) :
    List (String × Nat) → List ExLogRec → List (String × Nat)
  | acc, [] => acc
  | acc, [_] => acc
  | acc, a :: b :: rest =>
    countPairs recent
      (if recent.contains b.exercise_id then bump acc a.exercise_id else acc)
      (b :: rest)

/-- Raw per-exercise count of the `values().annotate(Count(...))` fallback
(line 152), grouped in first-occurrence order. -/
def countAll (logs : List ExLogRec) : List (String × Nat) :=
  logs.foldl (fun acc l => bump acc l.exercise_id) []

/-- Embedding of `get_group_recommendations` (lines 124-162).  Note the
final sort is ascending by count (`reverse=False` in the source). -/
def get_group_recommendations (db : LogDB) (user : FacilityUser) : List String :=
  let recent := get_most_recent_exercises db user
  let user_list := db.users.filter (fun v => v.group == user.group)
  let counts : List (String × Nat) :=
    if recent.isEmpty then
      countAll (db.exerciseLogs.filter (fun l => user_list.any (fun v => v.id == l.user)))
    else
      let user_exercises :=
        sortIns groupOrderLt
          (db.exerciseLogs.filter (fun l => user_list.any (fun v => v.id == l.user)))
      user_list.foldl
        (fun acc v => countPairs recent acc (user_exercises.filter (fun l => l.user == v.id)))
        []
  (sortIns (fun a b => Nat.blt a.2 b.2) counts).map (fun p => p.1)

/-! ### RESUME -/

/-- Element of the `item_list` built by `get_most_recent_incomplete_item`. -/
structure PendingItem where
  timestamp : Option Nat
  id : String
  kind : String
deriving DecidableEq

/-- Value returned by `get_most_recent_incomplete_item`: an entry of the
exercise cache or of the content cache. -/
inductive ResumeItem where
  | exercise (e : CacheEx)
  | content (c : CacheContent)
deriving DecidableEq

/-- Embedding of `get_most_recent_incomplete_item` (lines 366-401): take the
most recent incomplete log of each of the three tables, sort the up to three
candidates by timestamp ASCENDING (`item_list.sort`) and return the FIRST,
then resolve it through the matching cache (`dict.get`, so a missing cache
entry gives `none`).  A video candidate is labelled with kind `Content` as
in the source.  The `or datetime.datetime.min` default is modelled by
comparing `none` as the minimum. -/
def get_most_recent_incomplete_item (db : LogDB)
    (exCache : String → Option CacheEx) (contentCache : String → Option CacheContent)
    (user : FacilityUser) : Option ResumeItem :=
  let exercise_list :=
    (sortIns (fun a b => optLt b.latest_activity_timestamp a.latest_activity_timestamp)
      (db.exerciseLogs.filter (fun l => l.user == user.id && !l.complete))).take 1
  let video_list :=
    (sortIns (fun a b => optLt b.latest_activity_timestamp a.latest_activity_timestamp)
      (db.videoLogs.filter (fun l => l.user == user.id && !l.complete))).take 1
  let content_list :=
    (sortIns (fun a b => optLt b.latest_activity_timestamp a.latest_activity_timestamp)
      (db.contentLogs.filter (fun l => l.user == user.id && !l.complete))).take 1
  let item_list : List PendingItem :=
    exercise_list.map (fun l => ⟨l.latest_activity_timestamp, l.exercise_id, "Exercise"⟩) ++
    video_list.map (fun l => ⟨l.latest_activity_timestamp, l.video_id, "Content"⟩) ++
    content_list.map (fun l => ⟨l.latest_activity_timestamp, l.content_id, "Content"⟩)
  match sortIns (fun a b => optLt a.timestamp b.timestamp) item_list with
  | [] => none
  | item :: _ =>
    if item.kind == "Content" then (contentCache item.id).map ResumeItem.content
    else if item.kind == "Exercise" then (exCache item.id).map ResumeItem.exercise
    else none

/-- Embedding of `get_resume_recommendations` (lines 38-43). -/
def get_resume_recommendations (db : LogDB)
    (exCache : String → Option CacheEx) (contentCache : String → Option CacheContent)
    (user : FacilityUser) : List ResumeItem :=
  match get_most_recent_incomplete_item db exCache contentCache user with
  | some final => [final]
  | none => []

/-! ### NEXT STEPS -/

/-- Item returned by `get_next_recommendations`: the exercise cache entry
with the subtopic metadata attached under the key `topic`. -/
structure NextItem where
  exercise : CacheEx
  topic : NodeMeta
deriving DecidableEq

/-- Current subtopic of the user (lines 70-75): the subtopic of the most
recently touched exercise when it has an ancestry entry, otherwise none. -/
def next_current_subtopic (tree : TopicTree) (db : LogDB) (user : FacilityUser) :
    Option String :=
  match get_most_recent_exercises db user with
  | [] => none
  | m0 :: _ => (alookup (get_exercise_parents_lookup_table tree) m0).map
      (fun p => p.subtopic_id)

/-- Topic-tree based candidates of `get_next_recommendations` (lines 77-90):
the first THREE entries of the proximity ranking of the current subtopic
(the ranking starts with the subtopic itself), expanded to their first five
exercises each, keeping only the exercises not in the user history.  A
missing ranking key would be an uncaught KeyError (`none`). -/
def next_topic_based (tree : TopicTree) (db : LogDB) (user : FacilityUser) :
    Option (List String) :=
  let most_recent := get_most_recent_exercises db user
  match next_current_subtopic tree db user with
  | none => some []
  | some cs =>
    (alookup (generate_recommendation_data tree) cs).map (fun rel =>
      (get_exercises_from_topics tree (rel.take 3)).filter
        (fun ex => !(most_recent.contains ex)))

/-- Metadata resolution of a single candidate id as in the final loop of
`get_next_recommendations`: skip when the ancestry table has no entry, and
attach exercise cache entry plus topic metadata otherwise. -/
def resolve1 (parents : List (String × ParentEntry)) (topic_table : List (String × NodeMeta))
    (exCache : String → Option CacheEx) (e : String) : Option NextItem :=
  (alookup parents e).bind (fun p =>
    (exCache e).bind (fun ex =>
      (alookup topic_table p.subtopic_id).map (fun tp => NextItem.mk ex tp)))

/-- Final resolution loop of `get_next_recommendations` (lines 100-107): an
id without ancestry entry is skipped silently; an id whose ancestry entry
exists but whose exercise cache entry or topic table entry is missing is an
uncaught KeyError, modelled by `none`. -/
def resolve_recs (parents : List (String × ParentEntry)) (topic_table : List (String × NodeMeta))
    (exCache : String → Option CacheEx) : List String → Option (List NextItem)
  | [] => some []
  | e :: es =>
    match alookup parents e with
    | none => resolve_recs parents topic_table exCache es
    | some p =>
      match exCache e with
      | none => none
      | some ex =>
        match alookup topic_table p.subtopic_id with
        | none => none
        | some tp =>
          match resolve_recs parents topic_table exCache es with
          | none => none
          | some rest => some (NextItem.mk ex tp :: rest)

/-- Embedding of `get_next_recommendations` (lines 63-111): resolve the
concatenation of at most 2 group candidates, at most 2 struggling
candidates and at most 1 topic-tree candidate, in that order. -/
def get_next_recommendations (tree : TopicTree) (flat : List FlatNode) (db : LogDB)
    (exCache : String → Option CacheEx) (user : FacilityUser) : Option (List NextItem) :=
  let parents := get_exercise_parents_lookup_table tree
  let topic_table := get_topic_tree_lookup_table flat
  match next_topic_based tree db user with
  | none => none
  | some ttb =>
    match get_exercise_prereqs exCache (get_struggling_exercises db user) with
    | none => none
    | some struggling =>
      let grp := get_group_recommendations db user
      resolve_recs parents topic_table exCache
        (grp.take 2 ++ struggling.take 2 ++ ttb.take 1)

/-! ### EXPLORE -/

/-- Value returned by `get_subtopic_data` (lines 286-300). -/
structure SubData where
  id : String
  title : String
  path : String
  description : String
deriving DecidableEq

/-- Embedding of `get_subtopic_data`: metadata of a subtopic id, or `none`
for the `return []` fallthrough of the source. -/
def get_subtopic_data (flat : List FlatNode) (subtopic_id : String) : Option SubData :=
  (alookup (get_topic_tree_lookup_table flat) subtopic_id).map
    (fun t => ⟨subtopic_id, t.title, t.path, t.description⟩)

/-- Suggested topic block of an explore recommendation. -/
structure SuggestedTopic where
  title : String
  path : String
  description : String
deriving DecidableEq

/-- One explore recommendation: suggested topic plus interest topic title. -/
structure ExploreItem where
  suggested_topic : SuggestedTopic
  interest_title : String
deriving DecidableEq

/-- The two sample-size variables of `get_explore_recommendations`
(lines 229-241).  The branch for more than one recent exercise assigns the
misspelled variable `sumpleNum`, so `sampleNum` keeps the value 1 there;
`sumpleNum` starts unbound in Python and is given 0 here (it is never
read). -/
structure SampleVars where
  sampleNum : Nat
  sumpleNum : Nat
deriving DecidableEq

/-- Sample-size selection of `get_explore_recommendations`, mirroring the
nested `if` statements of the source. -/
def explore_sample_vars (n : Nat) : SampleVars :=
  if 0 < n then
    let v : SampleVars := { sampleNum := 1, sumpleNum := 0 }
    if 1 < n then
      let v2 : SampleVars := { v with sumpleNum := 2 }
      if 2 < n then { v2 with sampleNum := 3 } else v2
    else v
  else { sampleNum := 0, sumpleNum := 0 }

/-- The `sampleNum` value actually used by `get_explore_recommendations`. -/
def explore_sample_size (n : Nat) : Nat :=
  (explore_sample_vars n).sampleNum

/-- The `recent_subtopics` loop of `get_explore_recommendations`
(lines 224-227): distinct subtopic ids of the recent exercises in first
occurrence order; a recent exercise without ancestry entry is an uncaught
KeyError (`none`). -/
def build_recent_subtopics (parents : List (String × ParentEntry)) :
    List String → List String → Option (List String)
  | acc, [] => some acc
  | acc, e :: es =>
    match alookup parents e with
    | none => none
    | some p =>
      build_recent_subtopics parents
        (if acc.contains p.subtopic_id then acc else acc ++ [p.subtopic_id]) es

/-- The `recommended_topics` loop of `get_explore_recommendations`
(lines 253-257): resolve each window id through `get_subtopic_data` and keep
the ones not yet visited.  When `get_subtopic_data` returns its empty-list
fallback, the source immediately evaluates `curr['id']` and raises a
TypeError, modelled by `none`. -/
def recTopicsGo (flat : List FlatNode) (recent_subtopics : List String) :
    List String → Option (List SubData)
  | [] => some []
  | s :: ss =>
    match get_subtopic_data flat s with
    | none => none
    | some curr =>
      match recTopicsGo flat recent_subtopics ss with
      | none => none
      | some rest =>
        some (if recent_subtopics.contains curr.id then rest else curr :: rest)

/-- Main loop of `get_explore_recommendations` (lines 246-277) over the
sampled exercises, threading the `added` and `final` lists.  A suggestion
entry is `none` when no unvisited candidate was found (the source appends an
empty list in that case). -/
def exploreGo (data : List (String × List String)) (parents : List (String × ParentEntry))
    (flat : List FlatNode) (recent_subtopics : List String) :
    List String → List String → List (Option ExploreItem) → Option (List (Option ExploreItem))
  | [], _, final => some final
  | ex :: rest, added, final =>
    match alookup parents ex with
    | none => none
    | some exercise_data =>
      match alookup data exercise_data.subtopic_id with
      | none => none
      | some rel =>
        match recTopicsGo flat recent_subtopics ((rel.drop 2).take 5) with
        | none => none
        | some recommended =>
          let to_append : Option ExploreItem :=
            match recommended.head? with
            | some suggested =>
              some ⟨⟨suggested.title, suggested.path, suggested.description⟩,
                exercise_data.subtopic_title⟩
            | none => none
          if added.contains exercise_data.subtopic_id then
            exploreGo data parents flat recent_subtopics rest added final
          else
            exploreGo data parents flat recent_subtopics rest
              (added ++ [exercise_data.subtopic_id]) (final ++ [to_append])

/-- Embedding of `get_explore_recommendations` (lines 209-280).  The call to
`random.sample` is modelled by the oracle `sample`; theorems that need it
assume only the properties guaranteed by `random.sample`. -/
def get_explore_recommendations (tree : TopicTree) (flat : List FlatNode) (db : LogDB)
    (user : FacilityUser) (sample : List String → Nat → List String) :
    Option (List (Option ExploreItem)) :=
  let data := generate_recommendation_data tree
  let parents := get_exercise_parents_lookup_table tree
  let recent := get_most_recent_exercises db user
  match build_recent_subtopics parents [] recent with
  | none => none
  | some recent_subtopics =>
    let sampleNum := explore_sample_size recent.length
    let random_exercises := sample recent sampleNum
    exploreGo data parents flat recent_subtopics random_exercises [] []

/-! ### Concrete fixtures for the scenario claims -/

/-- Scenario tree of the spec (section 8): two topics `T1{A, B}` and
`T2{C, D}`, each subtopic with one exercise. -/
def testTree : TopicTree :=
  ⟨[⟨"T1", "Topic 1",
      [⟨"A", "Subtopic A", "/t1/a", "descA", [⟨"a1", "Ex a1", "Exercise", "", []⟩]⟩,
       ⟨"B", "Subtopic B", "/t1/b", "descB", [⟨"b1", "Ex b1", "Exercise", "", []⟩]⟩]⟩,
    ⟨"T2", "Topic 2",
      [⟨"C", "Subtopic C", "/t2/c", "descC", [⟨"c1", "Ex c1", "Exercise", "", []⟩]⟩,
       ⟨"D", "Subtopic D", "/t2/d", "descD", [⟨"d1", "Ex d1", "Exercise", "", []⟩]⟩]⟩]⟩

/-- Variant of the scenario tree whose subtopic `A` holds two exercises, used
by the claims about `get_next_recommendations`. -/
def treeW : TopicTree :=
  ⟨[⟨"T1", "Topic 1",
      [⟨"A", "Subtopic A", "/t1/a", "descA",
         [⟨"a1", "Ex a1", "Exercise", "", []⟩, ⟨"a2", "Ex a2", "Exercise", "", []⟩]⟩,
       ⟨"B", "Subtopic B", "/t1/b", "descB", [⟨"b1", "Ex b1", "Exercise", "", []⟩]⟩]⟩,
    ⟨"T2", "Topic 2",
      [⟨"C", "Subtopic C", "/t2/c", "descC", [⟨"c1", "Ex c1", "Exercise", "", []⟩]⟩,
       ⟨"D", "Subtopic D", "/t2/d", "descD", [⟨"d1", "Ex d1", "Exercise", "", []⟩]⟩]⟩]⟩

/-- Flat node list for the topic table matching `treeW` and `testTree`. -/
def flatW : List FlatNode :=
  [⟨"A", "Subtopic A", "Topic", "/t1/a", "descA", "T1", []⟩,
   ⟨"B", "Subtopic B", "Topic", "/t1/b", "descB", "T1", []⟩,
   ⟨"C", "Subtopic C", "Topic", "/t2/c", "descC", "T2", []⟩,
   ⟨"D", "Subtopic D", "Topic", "/t2/d", "descD", "T2", []⟩]

/-- Exercise cache covering the exercises of `treeW`; the id `s1` used by
the missing-cache-entry scenario is deliberately absent. -/
def exCacheW : String → Option CacheEx := fun i =>
  if i == "a1" then some ⟨"a1", "Ex a1", "Exercise", "", []⟩
  else if i == "a2" then some ⟨"a2", "Ex a2", "Exercise", "", []⟩
  else if i == "b1" then some ⟨"b1", "Ex b1", "Exercise", "", []⟩
  else if i == "c1" then some ⟨"c1", "Ex c1", "Exercise", "", []⟩
  else if i == "d1" then some ⟨"d1", "Ex d1", "Exercise", "", []⟩
  else none

/-- Exercise cache entry of `b1` in `exCacheW`. -/
def cb1 : CacheEx := ⟨"b1", "Ex b1", "Exercise", "", []⟩

/-- Topic table row produced for subtopic `B` from `flatW`. -/
def metaB : NodeMeta := ⟨"B", "Subtopic B", "Topic", "/t1/b", "descB", "T1", some []⟩

/-- Exercise cache entry used by the resume scenario. -/
def ce1 : CacheEx := ⟨"e1", "Ex e1", "Exercise", "", []⟩

/-- Content cache entry used by the resume scenario. -/
def cv1 : CacheContent := ⟨"v1", "Video v1", "Video"⟩

/-- User of the resume scenario. -/
def u1 : FacilityUser := ⟨"u1", "g1"⟩

/-- Resume scenario: one incomplete exercise log with activity timestamp 2
and one incomplete video log with the strictly later timestamp 5. -/
def db1 : LogDB :=
  ⟨[⟨"u1", "e1", false, false, some 2, none⟩], [⟨"u1", "v1", false, some 5⟩], [], [u1]⟩

/-- Exercise cache of the resume scenario. -/
def exCache1 : String → Option CacheEx := fun i => if i == "e1" then some ce1 else none

/-- Content cache of the resume scenario. -/
def contentCache1 : String → Option CacheContent := fun i =>
  if i == "v1" then some cv1 else none

/-- User with no activity whose group mate has activity. -/
def u4 : FacilityUser := ⟨"u4", "g"⟩

/-- Group mate of `u4`. -/
def p4 : FacilityUser := ⟨"p4", "g"⟩

/-- Log store where `u4` has no records while the group mate `p4` has one
completed exercise log. -/
def db4 : LogDB := ⟨[⟨"p4", "b1", true, false, some 1, some 1⟩], [], [], [u4, p4]⟩

/-- User of the topic-based scenario. -/
def u7 : FacilityUser := ⟨"u7", "g7"⟩

/-- Log store where `u7` has touched only exercise `a1` of subtopic `A`. -/
def db7 : LogDB := ⟨[⟨"u7", "a1", false, false, some 1, some 1⟩], [], [], [u7]⟩

/-- User of the missing-cache-entry scenario. -/
def u8 : FacilityUser := ⟨"u8", "g8"⟩

/-- Log store where `u8` is struggling on the exercise `s1`, which has no
entry in the exercise cache. -/
def db8 : LogDB := ⟨[⟨"u8", "s1", false, true, some 3, some 3⟩], [], [], [u8]⟩

/-- User with no records at all in `dbEmpty`. -/
def u0 : FacilityUser := ⟨"u0", "g0"⟩

/-- Log store with no activity records. -/
def dbEmpty : LogDB := ⟨[], [], [], [u0]⟩

/-- Claim-side recipe of C7, written from the words of the claim for
comparison with `next_topic_based`: top-3 proximity-ranking entries
EXCLUDING the current subtopic itself, expanded, minus history, at most
one kept. -/
def claimed_topic_based (tree : TopicTree) (db : LogDB) (user : FacilityUser) :
    Option (List String) :=
  let most_recent := get_most_recent_exercises db user
  match next_current_subtopic tree db user with
  | none => some []
  | some cs =>
    (alookup (generate_recommendation_data tree) cs).map (fun rel =>
      ((get_exercises_from_topics tree ((rel.filter (fun r => !(r == cs))).take 3)).filter
        (fun ex => !(most_recent.contains ex))).take 1)

/-! ### Helper lemmas -/

/-- Lookup commutes with a valuewise map of an association list. -/
theorem alookup_map_value {α β : Type} (f : α → β) (l : List (String × α)) (k : String) :
    alookup (l.map (fun p => (p.1, f p.2))) k = (alookup l k).map f := by
  induction l with
  | nil => rfl
  | cons p rest ih =>
    simp only [List.map_cons, alookup, ih]
    cases alookup rest k with
    | some v => rfl
    | none =>
      by_cases h : p.1 == k
      · simp [h]
      · simp [h]

/-- The accumulating loop of ITERATION 2.5 computes the two order-preserving
filters of its input. -/
theorem splitGo_spec (rel : List String) :
    ∀ acc : List String × List String,
      splitGo acc rel =
        (acc.1 ++ (rel.filter (fun r => !(tok1 r == "4"))).map tok0,
         acc.2 ++ (rel.filter (fun r => tok1 r == "4")).map tok0) := by
  induction rel with
  | nil => intro acc; simp [splitGo]
  | cons recc rest ih =>
    intro acc
    by_cases h : tok1 recc == "4"
    · simp [splitGo, h, ih]
    · simp [splitGo, h, ih]

/-- ITERATION 2.5 keeps every entry whose distance token differs from 4, in
order, followed by every entry whose distance token equals 4, in order. -/
theorem sortRelated_eq (rel : List String) :
    sortRelated rel =
      (rel.filter (fun r => !(tok1 r == "4"))).map tok0 ++
      (rel.filter (fun r => tok1 r == "4")).map tok0 := by
  simp [sortRelated, splitGo_spec]

/-- A successful run of the final resolution loop computes the `filterMap`
of the single-candidate resolution over the candidate list. -/
theorem resolve_recs_eq_filterMap (parents : List (String × ParentEntry))
    (topic_table : List (String × NodeMeta)) (exCache : String → Option CacheEx) :
    ∀ (ids : List String) (l : List NextItem),
      resolve_recs parents topic_table exCache ids = some l →
      l = ids.filterMap (resolve1 parents topic_table exCache) := by
  intro ids
  induction ids with
  | nil =>
    intro l h
    simp only [resolve_recs, Option.some.injEq] at h
    simp [h.symm]
  | cons e es ih =>
    intro l h
    simp only [resolve_recs] at h
    cases hp : alookup parents e with
    | none =>
      simp only [hp] at h
      have := ih l h
      simp [List.filterMap_cons, resolve1, hp, this]
    | some p =>
      simp only [hp] at h
      cases hc : exCache e with
      | none => simp only [hc] at h; exact absurd h (by simp)
      | some ex =>
        simp only [hc] at h
        cases htp : alookup topic_table p.subtopic_id with
        | none => simp only [htp] at h; exact absurd h (by simp)
        | some tp =>
          simp only [htp] at h
          cases hr : resolve_recs parents topic_table exCache es with
          | none => simp only [hr] at h; exact absurd h (by simp)
          | some rest =>
            simp only [hr, Option.some.injEq] at h
            have hrest := ih rest hr
            simp [h.symm, List.filterMap_cons, resolve1, hp, hc, htp, hrest]

/-- Accumulator form of `get_exercises_from_topics`. -/
theorem get_exercises_from_topics_go (tree : TopicTree) :
    ∀ (ids : List String) (acc : List String),
      ids.foldl
        (fun exs topic => exs ++ ((get_topic_exercises tree topic).take 5).map (fun e => e.id))
        acc =
      acc ++ ids.flatMap (fun t => ((get_topic_exercises tree t).take 5).map (fun e => e.id)) := by
  intro ids
  induction ids with
  | nil => intro acc; simp
  | cons t ts ih =>
    intro acc
    rw [List.foldl_cons, ih, List.flatMap_cons, List.append_assoc]

/-- Accumulator form of `recRow`. -/
theorem recRow_go (tree : TopicTree) :
    ∀ (rels : List String) (acc : List String),
      rels.foldl
        (fun acc rel =>
          if 0 < rel.length then acc ++ (get_topic_exercises tree rel).map (fun e => e.id)
          else acc) acc =
      acc ++ (rels.filter (fun r => 0 < r.length)).flatMap
        (fun rel => (get_topic_exercises tree rel).map (fun e => e.id)) := by
  intro rels
  induction rels with
  | nil => intro acc; simp
  | cons r rs ih =>
    intro acc
    by_cases h : 0 < r.length
    · simp [List.foldl_cons, h, ih]
    · simp [List.foldl_cons, h, ih]

/-- The row of `get_recommendation_tree` concatenates ALL exercises of the
non-empty related ids, without any cap. -/
theorem recRow_eq (tree : TopicTree) (rels : List String) :
    recRow tree rels =
      (rels.filter (fun r => 0 < r.length)).flatMap
        (fun rel => (get_topic_exercises tree rel).map (fun e => e.id)) := by
  simp [recRow, recRow_go]

/-! ### Claim theorems -/

/-- Claim C1 (code bug): in `db1` the user has an incomplete exercise log
with activity timestamp 2 and an incomplete video log with the strictly
later timestamp 5, so the most recently active incomplete record is the
video; `get_resume_recommendations` nevertheless returns the exercise cache
entry, because `get_most_recent_incomplete_item` sorts its candidate list
ascending by timestamp and takes the first, i.e. the LEAST recent
candidate, contradicting its own docstring. -/
theorem resume_picks_least_recent_champion :
    get_resume_recommendations db1 exCache1 contentCache1 u1 = [ResumeItem.exercise ce1] ∧
    get_resume_recommendations db1 exCache1 contentCache1 u1 ≠ [ResumeItem.content cv1] ∧
    optLt (some 2) (some 5) = true := by
  decide

/-- Claim C2 (counterexample): on the scenario tree,
`get_recommended_exercises` applied to a subtopic id absent from the
recommendation data raises a KeyError (modelled by `none`) instead of
returning an empty sequence. -/
theorem recommended_exercises_unknown_cx :
    get_recommended_exercises testTree (some "unknown-id") = none ∧
    get_recommended_exercises testTree (some "unknown-id") ≠ some [] := by
  decide

/-- Claim C2 (amended): a falsy subtopic id (`None` or the empty string)
yields the empty sequence without raising, while an id with no entry in the
recommendation data makes the dictionary lookup raise (modelled by
`none`). -/
theorem recommended_exercises_falsy_empty_unknown_raises (tree : TopicTree) (sid : String)
    (hne : sid ≠ "")
    (hunknown : alookup (generate_recommendation_data tree) sid = none) :
    get_recommended_exercises tree none = some [] ∧
    get_recommended_exercises tree (some "") = some [] ∧
    get_recommended_exercises tree (some sid) = none := by
  refine ⟨rfl, rfl, ?_⟩
  have h1 : (sid == "") = false := by simp [hne]
  simp only [get_recommended_exercises, h1, Bool.false_eq_true, if_false,
    get_recommendation_tree, alookup_map_value, hunknown]
  rfl

/-- Claim C2 (witness): the amended statement applied to the scenario tree
and the unknown id. -/
theorem recommended_exercises_falsy_empty_unknown_raises_witness :
    get_recommended_exercises testTree none = some [] ∧
    get_recommended_exercises testTree (some "") = some [] ∧
    get_recommended_exercises testTree (some "unknown-id") = none :=
  recommended_exercises_falsy_empty_unknown_raises testTree "unknown-id"
    (by decide) (by decide)

/-- Claim C3 (counterexample): in the scenario tree the proximity ranking
of `A` is not `[A, B, C, D]`; the absent left neighbor of `A` leaves an
empty-string entry in the ranking at position 1. -/
theorem proximity_ranking_scenario_cx :
    alookup (generate_recommendation_data testTree) "A" ≠ some ["A", "B", "C", "D"] ∧
    alookup (generate_recommendation_data testTree) "A" = some ["A", "", "B", "C", "D"] := by
  decide

/-- Claim C3 (amended): in the scenario tree the adjacency entries of `A`
and `B` are as expected (`A.left` absent, `A.right = B` local, `B.right =
C` boundary), and the proximity ranking of `A` is the near block
`[A, "", B]` (the empty string standing for the absent left neighbor)
followed by the far block `[C, D]`. -/
theorem proximity_ranking_scenario_amended :
    alookup (iter1 testTree) "A" = some ["A 0", " ", "B 1"] ∧
    alookup (iter1 testTree) "B" = some ["B 0", "A 1", "C 4"] ∧
    alookup (iter2_data testTree) "A" = some ["A 0", " ", "B 1", "C 4", "D 4"] ∧
    alookup (generate_recommendation_data testTree) "A" = some (["A", "", "B"] ++ ["C", "D"]) := by
  decide

/-- Claim C5: for every tree and subtopic, the final ranking is the
order-preserving filter of the ITERATION 2 entries whose distance token is
not 4 (the near tier: distance 0 and 1 entries, before any boundary
crossing) followed by the order-preserving filter of the entries whose
token is 4 (the far tier, after a boundary crossing), so every near entry
precedes every far entry and discovery order is preserved within each
partition. -/
theorem ranking_near_precedes_far (tree : TopicTree) (s : String) (rel : List String)
    (h : alookup (iter2_data tree) s = some rel) :
    alookup (generate_recommendation_data tree) s =
      some ((rel.filter (fun r => !(tok1 r == "4"))).map tok0 ++
            (rel.filter (fun r => tok1 r == "4")).map tok0) := by
  unfold generate_recommendation_data
  rw [alookup_map_value, h]
  simp [sortRelated_eq]

/-- Claim C5 (witness): the partition statement evaluated on subtopic `A`
of the scenario tree. -/
theorem ranking_near_precedes_far_witness :
    alookup (generate_recommendation_data testTree) "A" =
      some (((["A 0", " ", "B 1", "C 4", "D 4"] : List String).filter
              (fun r => !(tok1 r == "4"))).map tok0 ++
            ((["A 0", " ", "B 1", "C 4", "D 4"] : List String).filter
              (fun r => tok1 r == "4")).map tok0) :=
  ranking_near_precedes_far testTree "A" ["A 0", " ", "B 1", "C 4", "D 4"] (by decide)

/-- Claim C8 (counterexample): the user of `db8` is struggling on exercise
`s1`, which has no entry in the exercise cache; `get_exercise_prereqs`
raises a KeyError instead of skipping it, so the whole
`get_next_recommendations` call fails (modelled by `none`) rather than
returning the recommendations derived from the remaining entries. -/
theorem next_raises_on_missing_cache_cx :
    exCacheW "s1" = none ∧
    get_struggling_exercises db8 u8 = ["s1"] ∧
    get_next_recommendations treeW flatW db8 exCacheW u8 = none := by
  decide

/-- Claim C8 (amended): only in the final metadata-resolution loop of
`get_next_recommendations` is a candidate id without ancestry entry skipped
silently, the loop continuing with the remaining entries; ids missing from
the exercise cache or the topic table instead raise. -/
theorem resolve_skips_missing_ancestry (parents : List (String × ParentEntry))
    (topic_table : List (String × NodeMeta)) (exCache : String → Option CacheEx)
    (e : String) (es : List String) (h : alookup parents e = none) :
    resolve_recs parents topic_table exCache (e :: es) =
      resolve_recs parents topic_table exCache es := by
  simp [resolve_recs, h]

/-- Claim C8 (witness): the skip statement evaluated on an id with no
ancestry entry. -/
theorem resolve_skips_missing_ancestry_witness :
    resolve_recs [] [] exCacheW ["zz"] = resolve_recs [] [] exCacheW [] :=
  resolve_skips_missing_ancestry [] [] exCacheW "zz" [] (by decide)

/-- Claim C9 (counterexample): with exactly 2 recent exercises the sample
size chosen by `get_explore_recommendations` is 1, not `min 3 2 = 2`; the
branch for more than one recent exercise assigns the misspelled variable
`sumpleNum`. -/
theorem explore_sample_size_two_cx :
    explore_sample_size 2 = 1 ∧ explore_sample_size 2 ≠ min 3 2 := by
  decide

/-- Claim C9 (amended): the sample size is 0 with no recent exercises, 3
with at least three, and 1 otherwise (in particular 1, not 2, for exactly
two recent exercises). -/
theorem explore_sample_size_values (n : Nat) :
    explore_sample_size n = if n = 0 then 0 else if 3 ≤ n then 3 else 1 := by
  match n with
  | 0 => rfl
  | 1 => rfl
  | 2 => rfl
  | (k + 3) =>
    simp only [explore_sample_size, explore_sample_vars]
    rw [if_pos (by omega : 0 < k + 3), if_pos (by omega : 1 < k + 3),
      if_pos (by omega : 2 < k + 3), if_neg (by omega : ¬(k + 3 = 0)),
      if_pos (by omega : 3 ≤ k + 3)]

/-- Claim C4 (counterexample): `u4` has no activity records at all, yet
`get_next_recommendations` is not empty, because the group fallback counts
the exercise logs of the group mate `p4`. -/
theorem next_nonempty_from_peer_activity_cx :
    db4.exerciseLogs.filter (fun l => l.user == u4.id) = [] ∧
    db4.videoLogs.filter (fun l => l.user == u4.id) = [] ∧
    db4.contentLogs.filter (fun l => l.user == u4.id) = [] ∧
    get_next_recommendations treeW flatW db4 exCacheW u4 = some [NextItem.mk cb1 metaB] ∧
    get_next_recommendations treeW flatW db4 exCacheW u4 ≠ some [] := by
  decide

/-- Claim C4 (amended): for a user with no activity records, `resume` and
`explore` return empty sequences and do not fail, regardless of the
activity of other users; `next` returns an empty sequence under the
additional condition that no user of the same group has exercise logs
(otherwise the group fallback can supply candidates).  The `sample`
hypothesis is the `random.sample` guarantee for an empty draw. -/
theorem no_activity_strategies_empty (tree : TopicTree) (flat : List FlatNode) (db : LogDB)
    (exCache : String → Option CacheEx) (contentCache : String → Option CacheContent)
    (user : FacilityUser) (sample : List String → Nat → List String)
    (hex : db.exerciseLogs.filter (fun l => l.user == user.id) = [])
    (hvid : db.videoLogs.filter (fun l => l.user == user.id) = [])
    (hcon : db.contentLogs.filter (fun l => l.user == user.id) = [])
    (hsample : sample [] 0 = []) :
    get_resume_recommendations db exCache contentCache user = [] ∧
    get_explore_recommendations tree flat db user sample = some [] ∧
    (db.exerciseLogs.filter
        (fun l => (db.users.filter (fun v => v.group == user.group)).any
          (fun v => v.id == l.user)) = [] →
      get_next_recommendations tree flat db exCache user = some []) := by
  have hmre : get_most_recent_exercises db user = [] := by
    unfold get_most_recent_exercises
    rw [hex]
    rfl
  have hex2 : db.exerciseLogs.filter (fun l => l.user == user.id && !l.complete) = [] := by
    rw [List.filter_eq_nil_iff] at hex ⊢
    intro a ha
    have h := hex a ha
    simp_all
  have hvid2 : db.videoLogs.filter (fun l => l.user == user.id && !l.complete) = [] := by
    rw [List.filter_eq_nil_iff] at hvid ⊢
    intro a ha
    have h := hvid a ha
    simp_all
  have hcon2 : db.contentLogs.filter (fun l => l.user == user.id && !l.complete) = [] := by
    rw [List.filter_eq_nil_iff] at hcon ⊢
    intro a ha
    have h := hcon a ha
    simp_all
  have hresume : get_resume_recommendations db exCache contentCache user = [] := by
    unfold get_resume_recommendations get_most_recent_incomplete_item
    rw [hex2, hvid2, hcon2]
    rfl
  have hstep : get_explore_recommendations tree flat db user sample =
      exploreGo (generate_recommendation_data tree) (get_exercise_parents_lookup_table tree)
        flat [] (sample [] 0) [] [] := by
    unfold get_explore_recommendations
    rw [hmre]
    rfl
  have hexplore : get_explore_recommendations tree flat db user sample = some [] := by
    rw [hstep, hsample]
    rfl
  have h1 : next_topic_based tree db user = some [] := by
    simp only [next_topic_based, next_current_subtopic, hmre]
  have h2 : get_struggling_exercises db user = [] := by
    unfold get_struggling_exercises
    rw [hex]
    rfl
  exact ⟨hresume, hexplore, fun hgroup => by
    have h3 : get_group_recommendations db user = [] := by
      simp only [get_group_recommendations, hmre]
      rw [hgroup]
      rfl
    simp [get_next_recommendations, h1, h2, h3, get_exercise_prereqs, resolve_recs]⟩

/-- Claim C4 (witness): the resume and explore parts evaluated on the store
`db4`, where the group mate `p4` DOES have exercise logs while `u4` has no
records, and the next part evaluated on the store with no activity records
at all, discharging the no-group-logs condition there. -/
theorem no_activity_strategies_empty_witness :
    get_resume_recommendations db4 exCacheW contentCache1 u4 = [] ∧
    get_explore_recommendations treeW flatW db4 u4 (fun l n => l.take n) = some [] ∧
    get_next_recommendations testTree flatW dbEmpty exCacheW u0 = some [] :=
  ⟨(no_activity_strategies_empty treeW flatW db4 exCacheW contentCache1 u4
      (fun l n => l.take n) (by decide) (by decide) (by decide) (by decide)).1,
   (no_activity_strategies_empty treeW flatW db4 exCacheW contentCache1 u4
      (fun l n => l.take n) (by decide) (by decide) (by decide) (by decide)).2.1,
   (no_activity_strategies_empty testTree flatW dbEmpty exCacheW contentCache1 u0
      (fun l n => l.take n) (by decide) (by decide) (by decide) (by decide)).2.2
     (by decide)⟩

/-- Claim C6: a successful `get_next_recommendations` call returns at most 5
items, and the result is exactly the resolution (dropping ids without
ancestry entry, with no cross-source de-duplication) of the concatenation
of at most 2 group candidates, then at most 2 struggling candidates, then
at most 1 topic-tree candidate. -/
theorem next_merge_structure (tree : TopicTree) (flat : List FlatNode) (db : LogDB)
    (exCache : String → Option CacheEx) (user : FacilityUser) (l : List NextItem)
    (h : get_next_recommendations tree flat db exCache user = some l) :
    l.length ≤ 5 ∧
    ∃ ttb struggling,
      next_topic_based tree db user = some ttb ∧
      get_exercise_prereqs exCache (get_struggling_exercises db user) = some struggling ∧
      l = ((get_group_recommendations db user).take 2 ++ struggling.take 2 ++
            ttb.take 1).filterMap
            (resolve1 (get_exercise_parents_lookup_table tree)
              (get_topic_tree_lookup_table flat) exCache) := by
  simp only [get_next_recommendations] at h
  cases httb : next_topic_based tree db user with
  | none => simp [httb] at h
  | some ttb =>
    simp only [httb] at h
    cases hst : get_exercise_prereqs exCache (get_struggling_exercises db user) with
    | none => simp [hst] at h
    | some s =>
      simp only [hst] at h
      have heq := resolve_recs_eq_filterMap _ _ _ _ _ h
      refine ⟨?_, ttb, s, rfl, rfl, heq⟩
      rw [heq]
      have hlen := List.length_filterMap_le
        (resolve1 (get_exercise_parents_lookup_table tree)
          (get_topic_tree_lookup_table flat) exCache)
        ((get_group_recommendations db user).take 2 ++ s.take 2 ++ ttb.take 1)
      have hlen2 : ((get_group_recommendations db user).take 2 ++ s.take 2 ++
          ttb.take 1).length ≤ 5 := by
        simp [List.length_append, List.length_take]
        omega
      omega

/-- Claim C6 (witness): the merge statement evaluated on the store where
the group mate of `u4` supplies one candidate. -/
theorem next_merge_structure_witness :
    ([NextItem.mk cb1 metaB] : List NextItem).length ≤ 5 ∧
    ∃ ttb struggling,
      next_topic_based treeW db4 u4 = some ttb ∧
      get_exercise_prereqs exCacheW (get_struggling_exercises db4 u4) = some struggling ∧
      [NextItem.mk cb1 metaB] =
        ((get_group_recommendations db4 u4).take 2 ++ struggling.take 2 ++
          ttb.take 1).filterMap
          (resolve1 (get_exercise_parents_lookup_table treeW)
            (get_topic_tree_lookup_table flatW) exCacheW) :=
  next_merge_structure treeW flatW db4 exCacheW u4 [NextItem.mk cb1 metaB] (by decide)

/-- Claim C7 (counterexample): for the user whose most recent exercise is
`a1` in subtopic `A` of `treeW`, the topic-based candidate kept by the code
is `a2`, an exercise of the current subtopic itself, while the recipe of
the claim (top-3 ranking entries EXCLUDING the current subtopic) would
yield `b1`. -/
theorem next_topic_based_excluding_self_cx :
    (next_topic_based treeW db7 u7).map (fun l => l.take 1) = some ["a2"] ∧
    claimed_topic_based treeW db7 u7 = some ["b1"] ∧
    (["a2"] : List String) ≠ ["b1"] := by
  decide

/-- Claim C7 (amended): the topic-based candidates are built from the FIRST
THREE entries of the proximity ranking of the current subtopic, the current
subtopic itself included (it is the head of its own ranking), expanded
through `get_exercises_from_topics` and stripped of every exercise already
in the learner history; the merge of `get_next_recommendations` then keeps
at most one of them. -/
theorem next_topic_based_top3_with_self (tree : TopicTree) (db : LogDB)
    (user : FacilityUser) (cs : String) (rel : List String)
    (h1 : next_current_subtopic tree db user = some cs)
    (h2 : alookup (generate_recommendation_data tree) cs = some rel) :
    next_topic_based tree db user =
      some ((get_exercises_from_topics tree (rel.take 3)).filter
        (fun ex => !((get_most_recent_exercises db user).contains ex))) := by
  simp [next_topic_based, h1, h2]

/-- Claim C7 (witness): the amended statement evaluated on `treeW` and the
user whose current subtopic is `A`. -/
theorem next_topic_based_top3_with_self_witness :
    next_topic_based treeW db7 u7 =
      some ((get_exercises_from_topics treeW
          ((["A", "", "B", "C", "D"] : List String).take 3)).filter
        (fun ex => !((get_most_recent_exercises db7 u7).contains ex))) :=
  next_topic_based_top3_with_self treeW db7 u7 "A" ["A", "", "B", "C", "D"]
    (by decide) (by decide)

/-- Claim C10: `get_exercises_from_topics` returns, per listed id in order,
only the ids of its first 5 exercises; every topic-based candidate of
`get_next_recommendations` therefore lies within the first 5 exercises of
some related subtopic; `get_recommendation_tree` instead concatenates ALL
exercises of the non-empty related ids, with no cap. -/
theorem exercises_from_topics_capped (tree : TopicTree) (ids : List String)
    (data : List (String × List String)) (db : LogDB) (user : FacilityUser)
    (l : List String) (e : String)
    (h1 : next_topic_based tree db user = some l) (h2 : e ∈ l) :
    get_exercises_from_topics tree ids =
      ids.flatMap (fun t => ((get_topic_exercises tree t).take 5).map (fun x => x.id)) ∧
    get_recommendation_tree tree data =
      data.map (fun p => (p.1,
        (p.2.filter (fun r => 0 < r.length)).flatMap
          (fun rel => (get_topic_exercises tree rel).map (fun x => x.id)))) ∧
    ∃ t, e ∈ ((get_topic_exercises tree t).take 5).map (fun x => x.id) := by
  refine ⟨by simpa [get_exercises_from_topics] using get_exercises_from_topics_go tree ids [], ?_, ?_⟩
  · simp [get_recommendation_tree, recRow_eq]
  · simp only [next_topic_based] at h1
    cases hcs : next_current_subtopic tree db user with
    | none =>
      simp only [hcs, Option.some.injEq] at h1
      rw [← h1] at h2
      exact absurd h2 (by simp)
    | some cs =>
      simp only [hcs] at h1
      cases hrel : alookup (generate_recommendation_data tree) cs with
      | none => simp [hrel] at h1
      | some rel =>
        simp only [hrel, Option.map_some', Option.some.injEq] at h1
        rw [← h1] at h2
        have hmem : e ∈ get_exercises_from_topics tree (rel.take 3) :=
          (List.mem_filter.mp h2).1
        have hflat : get_exercises_from_topics tree (rel.take 3) =
            (rel.take 3).flatMap
              (fun t => ((get_topic_exercises tree t).take 5).map (fun x => x.id)) := by
          simpa [get_exercises_from_topics] using
            get_exercises_from_topics_go tree (rel.take 3) []
        rw [hflat] at hmem
        obtain ⟨t, _, hmt⟩ := List.mem_flatMap.mp hmem
        exact ⟨t, hmt⟩

/-- Claim C10 (witness): the statement evaluated on `treeW`, the ranking
row of `A`, and the topic-based candidate `a2` of the user of `db7`. -/
theorem exercises_from_topics_capped_witness :
    get_exercises_from_topics treeW ["A"] =
      (["A"] : List String).flatMap
        (fun t => ((get_topic_exercises treeW t).take 5).map (fun x => x.id)) ∧
    get_recommendation_tree treeW [("A", ["A", "B"])] =
      ([("A", ["A", "B"])] : List (String × List String)).map (fun p => (p.1,
        (p.2.filter (fun r => 0 < r.length)).flatMap
          (fun rel => (get_topic_exercises treeW rel).map (fun x => x.id)))) ∧
    ∃ t, "a2" ∈ ((get_topic_exercises treeW t).take 5).map (fun x => x.id) :=
  exercises_from_topics_capped treeW ["A"] [("A", ["A", "B"])] db7 u7 ["a2", "b1"] "a2"
    (by decide) (by decide)
